import Mathlib

/-!
Shallow embedding of the Interference Analysis Engine of `interference_detection.py`
(AutoFreqManage).  Raw device / site / wireless records are modelled with `Option`
fields for values that may be absent; Python floats are modelled as `ℚ` (exact
rational arithmetic) except where the code is genuinely transcendental
(`math.exp` / `math.log10`), which is modelled over `ℝ` for the scoring facts and
as oracle parameters for control-flow facts.  External library calls
(geopy distance / bearing, sklearn DBSCAN, numpy sqrt) are oracle parameters of
the embedded pipeline: the engine treats them as collaborators at its boundary.
Uncaught Python exceptions are modelled with `Except Unit`.
-/

namespace AutoFreqManage

/-- The `Device` dataclass of `interference_detection.py` (lines 29-45). -/
structure Device where
  id : String
  name : String
  type : String
  model : String
  site_id : Option String
  latitude : Option ℚ := none
  longitude : Option ℚ := none
  frequency : Option ℚ := none
  channel_width : Option ℚ := none
  tx_power : Option ℚ := none
  freq_min : Option ℚ := none
  freq_max : Option ℚ := none
  direction : Option String := none
  beam_width : Option ℚ := none
deriving DecidableEq

/-- The `InterferenceResult` dataclass (lines 47-56); the score is the rational value
returned by the scorer oracle of the pipeline. -/
structure InterferenceResult where
  device1 : Device
  device2 : Device
  frequency_overlap : ℚ
  distance : Option ℚ := none
  spatial_overlap : Option ℚ := none
  interference_score : ℚ := 0
  recommendation : String := ""
deriving DecidableEq

/-- Raw device record `{id, name, model, type, siteId}` (spec section 6). -/
structure DeviceRecord where
  id : Option String := none
  name : Option String := none
  type : Option String := none
  model : Option String := none
  siteId : Option String := none
deriving DecidableEq

/-- Raw site record; only `id`, `latitude`, `longitude` are consumed by the engine. -/
structure SiteRecord where
  id : Option String := none
  latitude : Option ℚ := none
  longitude : Option ℚ := none
deriving DecidableEq

/-- Raw wireless/radio record `{deviceId, frequency, channelWidth, txPower}`. -/
structure WirelessRecord where
  deviceId : Option String := none
  frequency : Option ℚ := none
  channelWidth : Option ℚ := none
  txPower : Option ℚ := none
deriving DecidableEq

/-- Python truthiness of an optional string: `None` and `""` are falsy. -/
def truthy : Option String → Bool
  | none => false
  | some s => decide (s ≠ "")

/-- Test whether a character list starts with the pattern. -/
def charsStart : List Char → List Char → Bool
  | [], _ => true
  | _ :: _, [] => false
  | p :: ps, c :: cs => p = c && charsStart ps cs

/-- Substring occurrence on character lists. -/
def charsContain (p : List Char) : List Char → Bool
  | [] => List.isEmpty p
  | c :: cs => charsStart p (c :: cs) || charsContain p cs

/-- Python's `pat in s` on strings. -/
def strContains (s pat : String) : Bool :=
  charsContain pat.toList s.toList

/-- Direction / beam-width inference from the lower-cased device name
(lines 119-135): test "north", "east", "south", "west" in that order,
first match wins, beam width fixed at 90 degrees on a match. -/
def inferDirection (nameLower : String) : Option String × Option ℚ :=
  if strContains nameLower "north" then (some "north", some 90)
  else if strContains nameLower "east" then (some "east", some 90)
  else if strContains nameLower "south" then (some "south", some 90)
  else if strContains nameLower "west" then (some "west", some 90)
  else (none, none)

/-- Derivation of `freq_min` / `freq_max` (lines 112-117): present exactly when both
frequency and channel width are present. -/
def freqBounds : Option ℚ → Option ℚ → Option ℚ × Option ℚ
  | some f, some cw => (some (f - cw / 2), some (f + cw / 2))
  | some _, none => (none, none)
  | none, some _ => (none, none)
  | none, none => (none, none)

/-- Lookup in `site_map` (lines 80-85, 102): keys are truthy site ids, later records
overwrite earlier ones, and a falsy key finds nothing. -/
def lookupSite (sites : List SiteRecord) (sid : Option String) : Option SiteRecord :=
  if truthy sid then
    (sites.filter (fun s => truthy s.id && decide (s.id = sid))).getLast?
  else none

/-- Lookup in `wireless_map` (lines 87-92, 105): keyed by truthy `deviceId`,
later records overwrite earlier ones. -/
def lookupWireless (configs : List WirelessRecord) (did : String) : Option WirelessRecord :=
  (configs.filter (fun c => truthy c.deviceId && decide (c.deviceId = some did))).getLast?

/-- Body of the per-record loop of `load_devices` (lines 94-155): a record with a
falsy `id` is skipped, otherwise a `Device` is assembled from the site and
wireless lookups. -/
def loadDevice (siteRecs : List SiteRecord) (wRecs : List WirelessRecord)
    (r : DeviceRecord) : Option Device :=
  match r.id with
  | none => none
  | some did =>
    if did = "" then none
    else
      let site := lookupSite siteRecs r.siteId
      let wcfg := lookupWireless wRecs did
      let frequency := wcfg.bind WirelessRecord.frequency
      let channel_width := wcfg.bind WirelessRecord.channelWidth
      let db := inferDirection ((r.name.getD "").toLower)
      some
        { id := did
          name := r.name.getD "Unknown"
          type := r.type.getD "Unknown"
          model := r.model.getD "Unknown"
          site_id := r.siteId
          latitude := site.bind SiteRecord.latitude
          longitude := site.bind SiteRecord.longitude
          frequency := frequency
          channel_width := channel_width
          tx_power := wcfg.bind WirelessRecord.txPower
          freq_min := (freqBounds frequency channel_width).1
          freq_max := (freqBounds frequency channel_width).2
          direction := db.1
          beam_width := db.2 }

/-- The `load_devices` method (lines 73-157). -/
def load_devices (devRecs : List DeviceRecord) (siteRecs : List SiteRecord)
    (wRecs : List WirelessRecord) : List Device :=
  devRecs.filterMap (loadDevice siteRecs wRecs)

/-- Summary field `total_devices` of the report (line 577). -/
def total_devices (devices : List Device) : ℕ := devices.length

/-- Summary field `devices_with_frequency` of the report (line 578). -/
def devices_with_frequency (devices : List Device) : ℕ :=
  (devices.filter (fun d => d.frequency.isSome)).length

/-- Python `width or 20` of line 330: `None` and `0` are falsy and replaced by the
default 20, any other value passes through. -/
def orTwenty : Option ℚ → ℚ
  | none => 20
  | some w => if w = 0 then 20 else w

/-- Value `min_channel_width` of line 330. -/
def minChannelWidth (cw1 cw2 : Option ℚ) : ℚ :=
  min (orTwenty cw1) (orTwenty cw2)

/-- The `_calculate_interference_score` method (lines 307-360), exactly over the
reals (`math.exp` is `Real.exp`, `math.log10` is `Real.logb 10`).  Python raises a
`ValueError` from `math.log10` when the distance is not positive; on that domain
this total real-valued model does not describe the code (see
`interferenceScoreFlow` for the control-flow model of that failure). -/
noncomputable def calculate_interference_score (frequency_overlap : ℝ)
    (distance spatial_overlap : Option ℝ) (device1 device2 : Device) : ℝ :=
  let min_channel_width : ℝ := (minChannelWidth device1.channel_width device2.channel_width : ℚ)
  let freq_score := frequency_overlap / min_channel_width * 100
  let distance_factor : ℝ :=
    match distance with
    | none => 1
    | some d => 0.1 + 0.9 / (1 + Real.exp ((Real.logb 10 d - 3) * 2))
  let spatial_factor : ℝ :=
    match spatial_overlap with
    | none => 1
    | some s => 0.2 + 0.8 * s
  let tx_power_factor : ℝ :=
    match device1.tx_power, device2.tx_power with
    | some p1, some p2 => 0.5 + ((p1 : ℝ) + (p2 : ℝ)) / 2 / 20
    | some _, none => 1
    | none, some _ => 1
    | none, none => 1
  freq_score * distance_factor * spatial_factor * tx_power_factor

/-- Control-flow model of `_calculate_interference_score` (lines 307-360) used
inside the pipeline: the transcendental parts (`math.exp`, `math.log10` on a
positive argument) are oracle parameters, and the uncaught `ValueError` that
`math.log10` raises on a distance `≤ 0` (line 340 has no surrounding
`try`/`except`) is the `Except.error` outcome. -/
def interferenceScoreFlow (expQ log10Q : ℚ → ℚ) (frequency_overlap : ℚ)
    (distance spatial_overlap : Option ℚ) (device1 device2 : Device) : Except Unit ℚ :=
  let min_channel_width := minChannelWidth device1.channel_width device2.channel_width
  let freq_score := frequency_overlap / min_channel_width * 100
  let spatial_factor : ℚ :=
    match spatial_overlap with
    | none => 1
    | some s => 0.2 + 0.8 * s
  let tx_power_factor : ℚ :=
    match device1.tx_power, device2.tx_power with
    | some p1, some p2 => 0.5 + (p1 + p2) / 2 / 20
    | some _, none => 1
    | none, some _ => 1
    | none, none => 1
  match distance with
  | none => .ok (freq_score * 1 * spatial_factor * tx_power_factor)
  | some d =>
    if d ≤ 0 then .error ()
    else
      let distance_factor := 0.1 + 0.9 / (1 + expQ ((log10Q d - 3) * 2))
      .ok (freq_score * distance_factor * spatial_factor * tx_power_factor)

/-- Python float modulo by 360 (nonnegative result for a positive divisor). -/
def mod360 (x : ℚ) : ℚ := x - 360 * (Int.floor (x / 360) : ℚ)

/-- The `dir_to_bearing` dictionary (lines 267-272). -/
def dirToBearing : String → Option ℚ
  | "north" => some 0
  | "east" => some 90
  | "south" => some 180
  | "west" => some 270
  | _ => none

/-- Angular deviation `abs((pointed - bearingTo + 180) % 360 - 180)` of
lines 281-282, normalized into `[0, 180]`. -/
def angleDiff (pointed bearingTo : ℚ) : ℚ :=
  |mod360 (pointed - bearingTo + 180) - 180|

/-- The `_calculate_spatial_overlap` method (lines 239-305).  The geodesic
bearing computed by the external geopy call is the oracle `bearingFn`; a `none`
from the oracle models the `except` branch (any geometry failure is caught and
yields an absent overlap), and a division by a zero half beam width raises a
`ZeroDivisionError` that the same `except` catches, hence the explicit
zero tests guarding each division. -/
def calculate_spatial_overlap (bearingFn : ℚ → ℚ → ℚ → ℚ → Option ℚ)
    (device1 device2 : Device) : Option ℚ :=
  match device1.latitude, device1.longitude, device2.latitude, device2.longitude,
      device1.direction, device2.direction, device1.beam_width, device2.beam_width with
  | some la1, some lo1, some la2, some lo2, some dir1, some dir2, some bw1, some bw2 =>
    match bearingFn la1 lo1 la2 lo2 with
    | none => none
    | some bearing1to2 =>
      let bearing2to1 := mod360 (bearing1to2 + 180)
      match dirToBearing dir1, dirToBearing dir2 with
      | some bearing1, some bearing2 =>
        let angle_diff1 := angleDiff bearing1 bearing1to2
        let angle_diff2 := angleDiff bearing2 bearing2to1
        let half_beam1 := bw1 / 2
        let half_beam2 := bw2 / 2
        if angle_diff1 ≤ half_beam1 ∧ angle_diff2 ≤ half_beam2 then
          if half_beam1 = 0 ∨ half_beam2 = 0 then none
          else some (((1 - angle_diff1 / half_beam1) + (1 - angle_diff2 / half_beam2)) / 2)
        else if angle_diff1 ≤ half_beam1 then
          if half_beam1 = 0 then none
          else some (0.5 * (1 - angle_diff1 / half_beam1))
        else if angle_diff2 ≤ half_beam2 then
          if half_beam2 = 0 then none
          else some (0.5 * (1 - angle_diff2 / half_beam2))
        else some 0
      | some _, none => none
      | none, some _ => none
      | none, none => none
  | _, _, _, _, _, _, _, _ => none

/-- Candidate 5 GHz center frequencies (lines 434-438). -/
def potential_frequencies : List ℚ :=
  [5180, 5200, 5220, 5240, 5260, 5280, 5300, 5320,
   5500, 5520, 5540, 5560, 5580, 5600, 5620, 5640, 5660, 5680, 5700,
   5745, 5765, 5785, 5805, 5825]

/-- The `_find_alternative_frequency` method (lines 415-454). -/
def find_alternative_frequency (devices : List Device) (device1 device2 : Device) :
    Option (ℚ × ℚ) :=
  let used_frequencies := devices.filterMap Device.frequency
  match potential_frequencies.filter (fun f => !(used_frequencies.contains f)) with
  | [] => none
  | alt :: _ =>
    match device1.frequency, device2.frequency with
    | some f1, some f2 =>
      if potential_frequencies.contains f1 then some (f1, alt)
      else if potential_frequencies.contains f2 then some (f2, alt)
      else none
    | some f1, none =>
      if potential_frequencies.contains f1 then some (f1, alt) else none
    | none, some f2 =>
      if potential_frequencies.contains f2 then some (f2, alt) else none
    | none, none => none

/-- Rendering of a possibly absent number inside a Python f-string. -/
def optStr : Option ℚ → String
  | none => "None"
  | some q => toString q

/-- The `_generate_recommendation` method (lines 362-413). -/
def generate_recommendation (devices : List Device) (device1 device2 : Device)
    (overlap : ℚ) (distance : Option ℚ) (score : ℚ) : String :=
  if score < 20 then "Low interference risk. No action needed."
  else
    let recsAlt : List String :=
      match find_alternative_frequency devices device1 device2 with
      | none => []
      | some (cur, alt) =>
        let device_to_change := if device1.frequency = some cur then device1 else device2
        ["Change " ++ device_to_change.name ++ " frequency from " ++
          optStr device_to_change.frequency ++ " MHz to " ++ toString alt ++ " MHz."]
    let recsPow1 : List String :=
      match device1.tx_power with
      | some p =>
        if p > 15 then
          ["Reduce transmit power of " ++ device1.name ++ " from " ++ toString p ++
            " dBm to " ++ toString (p - 3) ++ " dBm."]
        else []
      | none => []
    let recsPow2 : List String :=
      match device2.tx_power with
      | some p =>
        if p > 15 then
          ["Reduce transmit power of " ++ device2.name ++ " from " ++ toString p ++
            " dBm to " ++ toString (p - 3) ++ " dBm."]
        else []
      | none => []
    let recsDir : List String :=
      if device1.direction.isSome && device2.direction.isSome then
        ["Adjust antenna direction of " ++ device1.name ++ " or " ++ device2.name ++
          " to reduce overlap."]
      else []
    let recommendations := recsAlt ++ recsPow1 ++ recsPow2 ++ recsDir
    let recommendations :=
      if recommendations.isEmpty then
        ["Consider changing frequency of one device to a different band."]
      else recommendations
    let severity := if score > 70 then "High" else if score > 40 then "Medium" else "Low"
    "Interference Severity: " ++ severity ++ ". " ++ String.intercalate " " recommendations

/-- Inner double loop of `detect_frequency_interference` (lines 176-179): all
index pairs `i < j`, in loop order. -/
def devicePairs {α : Type} : List α → List (α × α)
  | [] => []
  | x :: xs => xs.map (fun y => (x, y)) ++ devicePairs xs

/-- Filter of line 169: devices with both frequency and channel width present. -/
def freqFilter (d : Device) : Bool :=
  d.frequency.isSome && d.channel_width.isSome

/-- Distance step of lines 195-205: the external geopy call is the oracle
`geoDist`, its `none` being the caught exception; absent coordinates skip the
call. -/
def pairDistance (geoDist : ℚ → ℚ → ℚ → ℚ → Option ℚ)
    (device1 device2 : Device) : Option ℚ :=
  match device1.latitude, device1.longitude, device2.latitude, device2.longitude with
  | some la1, some lo1, some la2, some lo2 => geoDist la1 lo1 la2 lo2
  | _, _, _, _ => none

/-- Loop body for one device pair (lines 178-231): skip co-located pairs, skip
missing frequency bounds, test range overlap, then compute distance, spatial
overlap, score (which may raise, hence `Except`), and the recommendation. -/
def pairResult (geoDist bearingFn : ℚ → ℚ → ℚ → ℚ → Option ℚ)
    (scoreFn : ℚ → Option ℚ → Option ℚ → Device → Device → Except Unit ℚ)
    (devices : List Device) (device1 device2 : Device) :
    Except Unit (Option InterferenceResult) :=
  if device1.site_id = device2.site_id then .ok none
  else
    match device1.freq_min, device1.freq_max, device2.freq_min, device2.freq_max with
    | some min1, some max1, some min2, some max2 =>
      if min1 ≤ max2 ∧ max1 ≥ min2 then
        let overlap := min max1 max2 - max min1 min2
        let distance : Option ℚ := pairDistance geoDist device1 device2
        let spatial_overlap := calculate_spatial_overlap bearingFn device1 device2
        match scoreFn overlap distance spatial_overlap device1 device2 with
        | .error e => .error e
        | .ok interference_score =>
          .ok (some
            { device1 := device1
              device2 := device2
              frequency_overlap := overlap
              distance := distance
              spatial_overlap := spatial_overlap
              interference_score := interference_score
              recommendation :=
                generate_recommendation devices device1 device2 overlap distance
                  interference_score })
      else .ok none
    | _, _, _, _ => .ok none

/-- Sequencing of the pair loop: results are appended in loop order, and the
first uncaught exception aborts the whole loop. -/
def collectResults (f : Device × Device → Except Unit (Option InterferenceResult)) :
    List (Device × Device) → Except Unit (List InterferenceResult)
  | [] => .ok []
  | p :: ps =>
    match f p with
    | .error e => .error e
    | .ok none => collectResults f ps
    | .ok (some r) =>
      match collectResults f ps with
      | .error e => .error e
      | .ok rs => .ok (r :: rs)

/-- The `detect_frequency_interference` method (lines 159-237): filter devices
with frequency data, early-return on fewer than two, evaluate every pair, then
sort the produced results by score, descending (line 234; Python's stable sort
with `reverse=True` is a stable merge sort under the flipped comparison). -/
def detect_frequency_interference (geoDist bearingFn : ℚ → ℚ → ℚ → ℚ → Option ℚ)
    (scoreFn : ℚ → Option ℚ → Option ℚ → Device → Device → Except Unit ℚ)
    (devices : List Device) : Except Unit (List InterferenceResult) :=
  let freq_devices := devices.filter freqFilter
  if freq_devices.length < 2 then .ok []
  else
    match collectResults (fun p => pairResult geoDist bearingFn scoreFn devices p.1 p.2)
        (devicePairs freq_devices) with
    | .error e => .error e
    | .ok rs =>
      .ok (rs.mergeSort (fun a b => decide (b.interference_score ≤ a.interference_score)))

/-- Feature rows of the clustering step (lines 472-479): per result,
`[frequency1 or 0, frequency2 or 0, score]`. -/
def clusterFeatures (results : List InterferenceResult) : List (List ℚ) :=
  results.map (fun r =>
    [r.device1.frequency.getD 0, r.device2.frequency.getD 0, r.interference_score])

/-- Column extraction of the feature matrix. -/
def colVals (rows : List (List ℚ)) (j : ℕ) : List ℚ :=
  rows.map (fun row => row.getD j 0)

/-- Column mean `X.mean(axis=0)` of line 485. -/
def colMean (rows : List (List ℚ)) (j : ℕ) : ℚ :=
  (colVals rows j).sum / rows.length

/-- Column population variance; `X.std(axis=0)` of line 485 is its square root. -/
def colVar (rows : List (List ℚ)) (j : ℕ) : ℚ :=
  ((colVals rows j).map (fun x => (x - colMean rows j) ^ 2)).sum / rows.length

/-- Occurrence counting with first-seen ordering, as a Python dict of counts
(lines 520-524 and 535-539). -/
def bumpCount {α : Type} [DecidableEq α] (x : α) :
    List (α × ℕ) → List (α × ℕ)
  | [] => [(x, 1)]
  | (y, n) :: rest => if x = y then (y, n + 1) :: rest else (y, n) :: bumpCount x rest

/-- Count table of a list, keys in first-seen order. -/
def countOcc {α : Type} [DecidableEq α] (xs : List α) : List (α × ℕ) :=
  xs.foldl (fun acc x => bumpCount x acc) []

/-- Per-cluster statistics (lines 508-550). -/
structure ClusterStats where
  size : ℕ
  avg_score : ℚ
  common_devices : List (String × ℕ)
  common_frequencies : List (Option ℚ × ℕ)
  results : List InterferenceResult
deriving DecidableEq

/-- Statistics of one cluster: size, mean score, top-3 device names and top-3
frequencies, counted across both slots and sorted by count descending (stable). -/
def clusterStats (results : List InterferenceResult) : ClusterStats :=
  let avg_score := (results.map InterferenceResult.interference_score).sum / results.length
  let deviceNames := (results.map (fun r => [r.device1.name, r.device2.name])).flatten
  let common_devices := (countOcc deviceNames).mergeSort (fun a b => decide (b.2 ≤ a.2))
  let frequencies := (results.map (fun r => [r.device1.frequency, r.device2.frequency])).flatten
  let common_frequencies := (countOcc frequencies).mergeSort (fun a b => decide (b.2 ≤ a.2))
  { size := results.length
    avg_score := avg_score
    common_devices := common_devices.take 3
    common_frequencies := common_frequencies.take 3
    results := results }

/-- Appending a result to its label's group, groups in first-seen label order
(lines 497-506); mirrors insertion into a Python dict of lists. -/
def addToGroup (l : Int) (r : InterferenceResult) :
    List (Int × List InterferenceResult) → List (Int × List InterferenceResult)
  | [] => [(l, [r])]
  | (k, rs) :: rest =>
    if l = k then (k, rs ++ [r]) :: rest else (k, rs) :: addToGroup l r rest

/-- Grouping of results by cluster label, skipping the noise label `-1`. -/
def clusterGroups (labels : List Int) (results : List InterferenceResult) :
    List (Int × List InterferenceResult) :=
  (labels.zip results).foldl
    (fun acc p => if p.1 = -1 then acc else addToGroup p.1 p.2 acc) []

/-- Return value of `cluster_interference_issues` when it does cluster. -/
structure ClusterReport where
  n_clusters : ℕ
  clusters : List (Int × ClusterStats)
deriving DecidableEq

/-- The `cluster_interference_issues` method (lines 456-555).  The empty-input
guard of line 467 returns the bare `{}` (modelled `none`).  The z-score
normalization of line 485 divides by the per-column standard deviation; a zero
standard deviation yields NaN entries (numpy emits NaN, it does not raise), and
sklearn's DBSCAN input validation then rejects the NaN matrix with an uncaught
`ValueError`, modelled as the `Except.error` outcome.  The DBSCAN fit itself
(line 488, with its `eps` / `min_samples` tunables) and the float square root
inside numpy's std are the oracles `dbscanFit` and `sqrtFn`. -/
def cluster_interference_issues (sqrtFn : ℚ → ℚ)
    (dbscanFit : List (List ℚ) → List Int)
    (results : List InterferenceResult) : Except Unit (Option ClusterReport) :=
  if results.isEmpty then .ok none
  else
    let X := clusterFeatures results
    if colVar X 0 = 0 ∨ colVar X 1 = 0 ∨ colVar X 2 = 0 then .error ()
    else
      let Xnorm := X.map (fun row =>
        (List.range 3).map (fun j => (row.getD j 0 - colMean X j) / sqrtFn (colVar X j)))
      let labels := dbscanFit Xnorm
      let n_clusters := ((labels.filter (fun l => decide (l ≠ -1))).dedup).length
      let groups := clusterGroups labels results
      .ok (some
        { n_clusters := n_clusters
          clusters := groups.map (fun g => (g.1, clusterStats g.2)) })

/-! ## Concrete oracle instances and snapshots used by witnesses and
counterexamples -/

/-- Trivial distance / bearing oracle: the external call always fails (caught). -/
def geo0 : ℚ → ℚ → ℚ → ℚ → Option ℚ := fun _ _ _ _ => none

/-- Trivial scorer oracle: every pair scores 0. -/
def score0 : ℚ → Option ℚ → Option ℚ → Device → Device → Except Unit ℚ :=
  fun _ _ _ _ _ => .ok 0

/-- Trivial stand-in for a transcendental oracle. -/
def rat0 : ℚ → ℚ := fun _ => 0

/-- Trivial DBSCAN oracle: no labels. -/
def dbscan0 : List (List ℚ) → List Int := fun _ => []

/-- Distance oracle agreeing with geopy on identical coordinate pairs, where the
geodesic distance is exactly 0 meters; other pairs are left unmodelled (treated
as the caught-exception branch).  Modelled from the spec: great-circle distance
between the two devices' site coordinates, in meters. -/
def geoDistIdent : ℚ → ℚ → ℚ → ℚ → Option ℚ :=
  fun la1 lo1 la2 lo2 => if la1 = la2 ∧ lo1 = lo2 then some 0 else none

/-! ## Helper lemmas -/

theorem orTwenty_ne_zero (cw : Option ℚ) : orTwenty cw ≠ 0 := by
  cases cw with
  | none => norm_num [orTwenty]
  | some w =>
    by_cases h : w = 0 <;> simp [orTwenty, h]

theorem orTwenty_pos (cw : Option ℚ) (h : ∀ w, cw = some w → 0 ≤ w) :
    0 < orTwenty cw := by
  cases cw with
  | none => norm_num [orTwenty]
  | some w =>
    rcases eq_or_ne w 0 with h0 | h0
    · simp [orTwenty, h0]
    · have hw := h w rfl
      simpa [orTwenty, h0] using lt_of_le_of_ne hw (Ne.symm h0)

theorem minChannelWidth_ne_zero (cw1 cw2 : Option ℚ) : minChannelWidth cw1 cw2 ≠ 0 := by
  unfold minChannelWidth
  rcases min_cases (orTwenty cw1) (orTwenty cw2) with ⟨h, _⟩ | ⟨h, _⟩ <;> rw [h]
  · exact orTwenty_ne_zero cw1
  · exact orTwenty_ne_zero cw2

theorem minChannelWidth_pos (cw1 cw2 : Option ℚ)
    (h1 : ∀ w, cw1 = some w → 0 ≤ w) (h2 : ∀ w, cw2 = some w → 0 ≤ w) :
    0 < minChannelWidth cw1 cw2 :=
  lt_min (orTwenty_pos cw1 h1) (orTwenty_pos cw2 h2)

/-! ## C10 -/

/-- C10: the frequency-factor divisor of `_calculate_interference_score`
(line 331) is never zero — a missing or zero channel width is replaced by the
default 20 before the minimum is taken — and it is strictly positive whenever all
present channel widths are non-negative. -/
theorem C10_min_channel_width_never_zero :
    (∀ cw1 cw2 : Option ℚ, minChannelWidth cw1 cw2 ≠ 0) ∧
    (∀ cw1 cw2 : Option ℚ,
      (∀ w, cw1 = some w → 0 ≤ w) → (∀ w, cw2 = some w → 0 ≤ w) →
      0 < minChannelWidth cw1 cw2) :=
  ⟨minChannelWidth_ne_zero, minChannelWidth_pos⟩

/-- Witness for C10 at concrete channel widths: a width of 5 together with an
absent width, and a width of 5 together with a zero width. -/
theorem C10_min_channel_width_never_zero_witness :
    minChannelWidth (some 5) none ≠ 0 ∧ 0 < minChannelWidth (some 5) (some 0) :=
  ⟨C10_min_channel_width_never_zero.1 (some 5) none,
   C10_min_channel_width_never_zero.2 (some 5) (some 0)
     (fun w hw => by cases hw; norm_num) (fun w hw => by cases hw; norm_num)⟩

/-! ## C3 -/

/-- Device with no radio parameters, on site S1. -/
def devPlain1 : Device :=
  { id := "X1", name := "x1", type := "t", model := "m", site_id := some "S1" }

/-- Device with no radio parameters, on site S2. -/
def devPlain2 : Device :=
  { id := "X2", name := "x2", type := "t", model := "m", site_id := some "S2" }

/-- Counterexample to C3 as stated: the scorer applied to a negative frequency
overlap (an input the claim's "any frequency overlap" includes) returns the
negative value -5, so the score is not non-negative for every input. -/
theorem C3_counterexample :
    calculate_interference_score (-1) none none devPlain1 devPlain2 < 0 := by
  unfold calculate_interference_score devPlain1 devPlain2
  norm_num [minChannelWidth, orTwenty]

/-- C3 (amended): the interference score is non-negative for every scorer input
whose numeric fields are in the range the pipeline actually produces —
non-negative frequency overlap, non-negative present channel widths,
positive present distance (`math.log10` raises on other distances, so the code
returns nothing there), non-negative present spatial overlap, and transmit
powers of non-negative sum. -/
theorem C3_score_nonneg (frequency_overlap : ℝ) (distance spatial_overlap : Option ℝ)
    (device1 device2 : Device)
    (hov : 0 ≤ frequency_overlap)
    (hw1 : ∀ w, device1.channel_width = some w → 0 ≤ w)
    (hw2 : ∀ w, device2.channel_width = some w → 0 ≤ w)
    (hdist : ∀ d, distance = some d → 0 < d)
    (hsp : ∀ s, spatial_overlap = some s → 0 ≤ s)
    (hpw : ∀ p1 p2, device1.tx_power = some p1 → device2.tx_power = some p2 →
      0 ≤ p1 + p2) :
    0 ≤ calculate_interference_score frequency_overlap distance spatial_overlap
      device1 device2 := by
  unfold calculate_interference_score
  have hmcw : (0 : ℝ) < ((minChannelWidth device1.channel_width device2.channel_width : ℚ) : ℝ) := by
    exact_mod_cast minChannelWidth_pos _ _ hw1 hw2
  have hfreq : 0 ≤ frequency_overlap /
      ((minChannelWidth device1.channel_width device2.channel_width : ℚ) : ℝ) * 100 := by
    have := div_nonneg hov (le_of_lt hmcw)
    linarith
  have hdf : 0 ≤ (match distance with
      | none => (1 : ℝ)
      | some d => 0.1 + 0.9 / (1 + Real.exp ((Real.logb 10 d - 3) * 2))) := by
    cases distance with
    | none => norm_num
    | some d => positivity
  have hsf : 0 ≤ (match spatial_overlap with
      | none => (1 : ℝ)
      | some s => 0.2 + 0.8 * s) := by
    cases spatial_overlap with
    | none => norm_num
    | some s =>
      have := hsp s rfl
      nlinarith
  have hpf : 0 ≤ (match device1.tx_power, device2.tx_power with
      | some p1, some p2 => 0.5 + (((p1 : ℚ) : ℝ) + ((p2 : ℚ) : ℝ)) / 2 / 20
      | some _, none => (1 : ℝ)
      | none, some _ => (1 : ℝ)
      | none, none => (1 : ℝ)) := by
    cases hp1 : device1.tx_power with
    | none => cases device2.tx_power <;> norm_num
    | some p1 =>
      cases hp2 : device2.tx_power with
      | none => norm_num
      | some p2 =>
        have hsum : (0 : ℚ) ≤ p1 + p2 := hpw p1 p2 hp1 hp2
        have : (0 : ℝ) ≤ ((p1 : ℚ) : ℝ) + ((p2 : ℚ) : ℝ) := by exact_mod_cast hsum
        simp only []
        linarith
  exact mul_nonneg (mul_nonneg (mul_nonneg hfreq hdf) hsf) hpf

/-- Witness for the amended C3 at a concrete input: overlap 15 MHz, distance
50 m, full spatial overlap, widths 20 MHz, powers 10 dBm. -/
theorem C3_score_nonneg_witness :
    0 ≤ calculate_interference_score 15 (some 50) (some 1)
      { devPlain1 with channel_width := some 20, tx_power := some 10 }
      { devPlain2 with channel_width := some 20, tx_power := some 10 } :=
  C3_score_nonneg 15 (some 50) (some 1) _ _ (by norm_num)
    (fun w hw => by cases hw; norm_num) (fun w hw => by cases hw; norm_num)
    (fun d hd => by cases hd; norm_num) (fun s hs => by cases hs; norm_num)
    (fun p1 p2 h1 h2 => by cases h1; cases h2; norm_num)

/-! ## C8 -/

theorem highSeverityAppend (t : String) :
    "Interference Severity: " ++ "High" ++ ". " ++ t =
      "Interference Severity: High. " ++ t := by
  rw [show ("Interference Severity: " ++ "High" ++ ". " : String) =
    "Interference Severity: High. " from rfl]

/-- C8: a score below 20 makes `_generate_recommendation` return exactly the
fixed "no action needed" message (line 383-384), and a score above 70 makes the
returned text start with the "High" severity label (line 411-413). -/
theorem C8_recommendation_thresholds (devices : List Device)
    (device1 device2 : Device) (overlap : ℚ) (distance : Option ℚ) (score : ℚ) :
    (score < 20 →
      generate_recommendation devices device1 device2 overlap distance score =
        "Low interference risk. No action needed.") ∧
    (70 < score → ∃ rest,
      generate_recommendation devices device1 device2 overlap distance score =
        "Interference Severity: High. " ++ rest) := by
  constructor
  · intro h
    simp [generate_recommendation, h]
  · intro h70
    have h20 : ¬ score < 20 := by linarith
    simp only [generate_recommendation, h20, if_false, gt_iff_lt, h70, if_true]
    exact ⟨_, highSeverityAppend _⟩

/-- Witness for C8 at concrete inputs: score 10 gives the fixed message, score 80
gives a text starting with the "High" label. -/
theorem C8_recommendation_thresholds_witness :
    (generate_recommendation [] devPlain1 devPlain2 0 none 10 =
      "Low interference risk. No action needed.") ∧
    (∃ rest, generate_recommendation [] devPlain1 devPlain2 0 none 80 =
      "Interference Severity: High. " ++ rest) :=
  ⟨(C8_recommendation_thresholds [] devPlain1 devPlain2 0 none 10).1 (by norm_num),
   (C8_recommendation_thresholds [] devPlain1 devPlain2 0 none 80).2 (by norm_num)⟩

/-! ## C9 -/

theorem filterMap_eq_filterMap_filter {α β : Type} (f : α → Option β) (p : α → Bool)
    (h : ∀ x, p x = false → f x = none) :
    ∀ l : List α, l.filterMap f = (l.filter p).filterMap f := by
  intro l
  induction l with
  | nil => rfl
  | cons x xs ih =>
    by_cases hx : p x
    · simp [List.filter_cons, hx, List.filterMap_cons, ih]
    · have hfx := h x (by simpa using hx)
      simp [List.filter_cons, hx, List.filterMap_cons, hfx, ih]

theorem loadDevice_falsy_id (siteRecs : List SiteRecord) (wRecs : List WirelessRecord)
    (r : DeviceRecord) (h : truthy r.id = false) :
    loadDevice siteRecs wRecs r = none := by
  unfold loadDevice
  cases hid : r.id with
  | none => rfl
  | some s =>
    rw [hid] at h
    simp only [truthy, decide_eq_false_iff_not, not_not] at h
    simp [h]

/-- C9: a device record with a missing or empty `id` is silently skipped by
`load_devices` (lines 96-98): the loaded device list — and hence the report's
`total_devices` and `devices_with_frequency` counts and every result of
`detect_frequency_interference` — is the one obtained from the records whose
`id` is truthy. -/
theorem C9_falsy_id_skipped (devRecs : List DeviceRecord)
    (siteRecs : List SiteRecord) (wRecs : List WirelessRecord) :
    load_devices devRecs siteRecs wRecs =
      load_devices (devRecs.filter (fun r => truthy r.id)) siteRecs wRecs ∧
    total_devices (load_devices devRecs siteRecs wRecs) =
      total_devices (load_devices (devRecs.filter (fun r => truthy r.id)) siteRecs wRecs) ∧
    devices_with_frequency (load_devices devRecs siteRecs wRecs) =
      devices_with_frequency
        (load_devices (devRecs.filter (fun r => truthy r.id)) siteRecs wRecs) ∧
    ∀ (geoDist bearingFn : ℚ → ℚ → ℚ → ℚ → Option ℚ)
      (scoreFn : ℚ → Option ℚ → Option ℚ → Device → Device → Except Unit ℚ),
      detect_frequency_interference geoDist bearingFn scoreFn
          (load_devices devRecs siteRecs wRecs) =
        detect_frequency_interference geoDist bearingFn scoreFn
          (load_devices (devRecs.filter (fun r => truthy r.id)) siteRecs wRecs) := by
  have key : load_devices devRecs siteRecs wRecs =
      load_devices (devRecs.filter (fun r => truthy r.id)) siteRecs wRecs :=
    filterMap_eq_filterMap_filter _ _
      (fun r hr => loadDevice_falsy_id siteRecs wRecs r hr) devRecs
  exact ⟨key, by rw [key], by rw [key], fun g b s => by rw [key]⟩

/-! ## C6 -/

theorem colVar_singleton (row : List ℚ) (j : ℕ) : colVar [row] j = 0 := by
  simp [colVar, colVals, colMean]

theorem cluster_singleton_error (sqrtFn : ℚ → ℚ) (dbscanFit : List (List ℚ) → List Int)
    (r : InterferenceResult) :
    cluster_interference_issues sqrtFn dbscanFit [r] = .error () := by
  simp [cluster_interference_issues, clusterFeatures, colVar_singleton]

/-- C6 (amended): only an empty result set short-circuits clustering —
`cluster_interference_issues` then returns the bare empty report — while a
result set with exactly one result does attempt clustering and fails: every
feature column of a single row has zero standard deviation, the z-score
normalization produces NaN, and DBSCAN's input validation raises. -/
theorem C6_cluster_small_inputs (sqrtFn : ℚ → ℚ) (dbscanFit : List (List ℚ) → List Int) :
    cluster_interference_issues sqrtFn dbscanFit [] = .ok none ∧
    ∀ r : InterferenceResult,
      cluster_interference_issues sqrtFn dbscanFit [r] = .error () := by
  exact ⟨rfl, cluster_singleton_error sqrtFn dbscanFit⟩

/-- One-element result set for the C6 counterexample. -/
def resultCE : InterferenceResult :=
  { device1 := devPlain1, device2 := devPlain2, frequency_overlap := 15 }

/-- Counterexample to C6 as stated: with exactly one Conflict Result the code
does not return an empty clustering — the guard of line 467 only tests
emptiness, and the run aborts in the normalization/DBSCAN step. -/
theorem C6_counterexample :
    cluster_interference_issues rat0 dbscan0 [resultCE] = .error () ∧
    cluster_interference_issues rat0 dbscan0 [resultCE] ≠ .ok none ∧
    cluster_interference_issues rat0 dbscan0 [resultCE] ≠
      .ok (some { n_clusters := 0, clusters := [] }) := by
  have h : cluster_interference_issues rat0 dbscan0 [resultCE] = .error () :=
    cluster_singleton_error rat0 dbscan0 resultCE
  refine ⟨h, ?_, ?_⟩ <;> rw [h] <;> intro hx <;> exact Except.noConfusion hx

/-! ## C5 -/

/-- C5: whenever both devices carry coordinates, a cardinal direction and a
positive beam width, and the external bearing computation succeeds (oracle
`bearingFn` returns a value, modelling the geodesic bearing of lines 259-264),
`_calculate_spatial_overlap` returns a present value that follows the spec's
case analysis — averaged facing fractions when both devices face each other,
half of the single facing fraction when exactly one faces, zero when neither
faces — and every present value lies in `[0, 1]`. -/
theorem C5_spatial_overlap (bearingFn : ℚ → ℚ → ℚ → ℚ → Option ℚ)
    (device1 device2 : Device) (la1 lo1 la2 lo2 bw1 bw2 b12 beta1 beta2 : ℚ)
    (dir1 dir2 : String)
    (h1a : device1.latitude = some la1) (h1o : device1.longitude = some lo1)
    (h2a : device2.latitude = some la2) (h2o : device2.longitude = some lo2)
    (h1d : device1.direction = some dir1) (h2d : device2.direction = some dir2)
    (h1b : device1.beam_width = some bw1) (h2b : device2.beam_width = some bw2)
    (hbw1 : 0 < bw1) (hbw2 : 0 < bw2)
    (hb : bearingFn la1 lo1 la2 lo2 = some b12)
    (hd1 : dirToBearing dir1 = some beta1) (hd2 : dirToBearing dir2 = some beta2) :
    ∃ v, calculate_spatial_overlap bearingFn device1 device2 = some v ∧
      0 ≤ v ∧ v ≤ 1 ∧
      (angleDiff beta1 b12 ≤ bw1 / 2 → angleDiff beta2 (mod360 (b12 + 180)) ≤ bw2 / 2 →
        v = ((1 - angleDiff beta1 b12 / (bw1 / 2)) +
             (1 - angleDiff beta2 (mod360 (b12 + 180)) / (bw2 / 2))) / 2) ∧
      (angleDiff beta1 b12 ≤ bw1 / 2 → ¬ angleDiff beta2 (mod360 (b12 + 180)) ≤ bw2 / 2 →
        v = 0.5 * (1 - angleDiff beta1 b12 / (bw1 / 2))) ∧
      (¬ angleDiff beta1 b12 ≤ bw1 / 2 → angleDiff beta2 (mod360 (b12 + 180)) ≤ bw2 / 2 →
        v = 0.5 * (1 - angleDiff beta2 (mod360 (b12 + 180)) / (bw2 / 2))) ∧
      (¬ angleDiff beta1 b12 ≤ bw1 / 2 → ¬ angleDiff beta2 (mod360 (b12 + 180)) ≤ bw2 / 2 →
        v = 0) := by
  have hb1 : ¬ (bw1 / 2 = 0) := by positivity
  have hb2 : ¬ (bw2 / 2 = 0) := by positivity
  have hbp1 : 0 < bw1 / 2 := by positivity
  have hbp2 : 0 < bw2 / 2 := by positivity
  have had1 : 0 ≤ angleDiff beta1 b12 := abs_nonneg _
  have had2 : 0 ≤ angleDiff beta2 (mod360 (b12 + 180)) := abs_nonneg _
  unfold calculate_spatial_overlap
  simp only [h1a, h1o, h2a, h2o, h1d, h2d, h1b, h2b, hb, hd1, hd2]
  by_cases c1 : angleDiff beta1 b12 ≤ bw1 / 2 <;>
    by_cases c2 : angleDiff beta2 (mod360 (b12 + 180)) ≤ bw2 / 2
  · have x1 : angleDiff beta1 b12 / (bw1 / 2) ≤ 1 := div_le_one_of_le₀ c1 (le_of_lt hbp1)
    have x2 : angleDiff beta2 (mod360 (b12 + 180)) / (bw2 / 2) ≤ 1 :=
      div_le_one_of_le₀ c2 (le_of_lt hbp2)
    have y1 : 0 ≤ angleDiff beta1 b12 / (bw1 / 2) := div_nonneg had1 (le_of_lt hbp1)
    have y2 : 0 ≤ angleDiff beta2 (mod360 (b12 + 180)) / (bw2 / 2) :=
      div_nonneg had2 (le_of_lt hbp2)
    refine ⟨_, by simp [c1, c2, hb1, hb2], by linarith, by linarith,
      fun _ _ => rfl, fun _ hc => absurd c2 hc, fun hc _ => absurd c1 hc,
      fun hc _ => absurd c1 hc⟩
  · have x1 : angleDiff beta1 b12 / (bw1 / 2) ≤ 1 := div_le_one_of_le₀ c1 (le_of_lt hbp1)
    have y1 : 0 ≤ angleDiff beta1 b12 / (bw1 / 2) := div_nonneg had1 (le_of_lt hbp1)
    refine ⟨_, by simp [c1, c2, hb1, hb2], by norm_num; linarith, by norm_num; linarith,
      fun _ hc => absurd hc c2, fun _ _ => rfl, fun hc _ => absurd c1 hc,
      fun hc _ => absurd c1 hc⟩
  · have x2 : angleDiff beta2 (mod360 (b12 + 180)) / (bw2 / 2) ≤ 1 :=
      div_le_one_of_le₀ c2 (le_of_lt hbp2)
    have y2 : 0 ≤ angleDiff beta2 (mod360 (b12 + 180)) / (bw2 / 2) :=
      div_nonneg had2 (le_of_lt hbp2)
    refine ⟨_, by simp [c1, c2, hb1, hb2], by norm_num; linarith, by norm_num; linarith,
      fun hc _ => absurd hc c1, fun hc _ => absurd hc c1, fun _ _ => rfl,
      fun _ hc => absurd c2 hc⟩
  · refine ⟨0, by simp [c1, c2], le_refl 0, by norm_num,
      fun hc _ => absurd hc c1, fun hc _ => absurd hc c1, fun _ hc => absurd hc c2,
      fun _ _ => rfl⟩

/-- North-facing device at the origin, for the C5 witness. -/
def devNorth : Device :=
  { id := "N", name := "n-north", type := "t", model := "m", site_id := some "S1",
    latitude := some 0, longitude := some 0, direction := some "north",
    beam_width := some 90 }

/-- South-facing device one degree north, for the C5 witness. -/
def devSouth : Device :=
  { id := "S", name := "s-south", type := "t", model := "m", site_id := some "S2",
    latitude := some 1, longitude := some 0, direction := some "south",
    beam_width := some 90 }

/-- Bearing oracle for the C5 witness: the second site is due north of the first. -/
def bearingNorth : ℚ → ℚ → ℚ → ℚ → Option ℚ := fun _ _ _ _ => some 0

/-- Witness for C5 at a concrete pair: two devices pointing straight at each
other, where the spatial overlap is present and within bounds. -/
theorem C5_spatial_overlap_witness :
    ∃ v, calculate_spatial_overlap bearingNorth devNorth devSouth = some v ∧
      0 ≤ v ∧ v ≤ 1 ∧
      (angleDiff 0 0 ≤ 90 / 2 → angleDiff 180 (mod360 (0 + 180)) ≤ 90 / 2 →
        v = ((1 - angleDiff 0 0 / (90 / 2)) +
             (1 - angleDiff 180 (mod360 (0 + 180)) / (90 / 2))) / 2) ∧
      (angleDiff 0 0 ≤ 90 / 2 → ¬ angleDiff 180 (mod360 (0 + 180)) ≤ 90 / 2 →
        v = 0.5 * (1 - angleDiff 0 0 / (90 / 2))) ∧
      (¬ angleDiff 0 0 ≤ 90 / 2 → angleDiff 180 (mod360 (0 + 180)) ≤ 90 / 2 →
        v = 0.5 * (1 - angleDiff 180 (mod360 (0 + 180)) / (90 / 2))) ∧
      (¬ angleDiff 0 0 ≤ 90 / 2 → ¬ angleDiff 180 (mod360 (0 + 180)) ≤ 90 / 2 →
        v = 0) :=
  C5_spatial_overlap bearingNorth devNorth devSouth 0 0 1 0 90 90 0 0 180
    "north" "south" rfl rfl rfl rfl rfl rfl rfl rfl (by norm_num) (by norm_num)
    rfl rfl rfl

/-! ## Pipeline lemmas -/

theorem collectResults_mem {f : Device × Device → Except Unit (Option InterferenceResult)} :
    ∀ {ps : List (Device × Device)} {rs : List InterferenceResult},
      collectResults f ps = .ok rs →
      ∀ x, x ∈ rs ↔ ∃ p ∈ ps, f p = .ok (some x) := by
  intro ps
  induction ps with
  | nil =>
    intro rs h x
    cases h
    simp
  | cons p ps ih =>
    intro rs h x
    unfold collectResults at h
    cases hf : f p with
    | error e => rw [hf] at h; exact absurd h (by simp)
    | ok o =>
      rw [hf] at h
      cases o with
      | none =>
        rw [ih h x]
        constructor
        · rintro ⟨q, hq, hfq⟩; exact ⟨q, List.mem_cons_of_mem _ hq, hfq⟩
        · rintro ⟨q, hq, hfq⟩
          rcases List.mem_cons.mp hq with rfl | hq'
          · rw [hf] at hfq; exact absurd hfq (by simp)
          · exact ⟨q, hq', hfq⟩
      | some r =>
        cases hrec : collectResults f ps with
        | error e => rw [hrec] at h; exact absurd h (by simp)
        | ok rs' =>
          rw [hrec] at h
          cases h
          rw [List.mem_cons, ih hrec x]
          constructor
          · rintro (rfl | ⟨q, hq, hfq⟩)
            · exact ⟨p, List.mem_cons_self _ _, hf⟩
            · exact ⟨q, List.mem_cons_of_mem _ hq, hfq⟩
          · rintro ⟨q, hq, hfq⟩
            rcases List.mem_cons.mp hq with rfl | hq'
            · rw [hf] at hfq
              left
              exact (Option.some_inj.mp (Except.ok.inj hfq)).symm
            · right; exact ⟨q, hq', hfq⟩

theorem collectResults_ok_of_mem
    {f : Device × Device → Except Unit (Option InterferenceResult)} :
    ∀ {ps : List (Device × Device)} {rs : List InterferenceResult}
      {p : Device × Device}, collectResults f ps = .ok rs → p ∈ ps →
      ∃ o, f p = .ok o := by
  intro ps
  induction ps with
  | nil => intro rs p _ hp; exact absurd hp (by simp)
  | cons q ps ih =>
    intro rs p h hp
    unfold collectResults at h
    cases hf : f q with
    | error e => rw [hf] at h; exact absurd h (by simp)
    | ok o =>
      rw [hf] at h
      rcases List.mem_cons.mp hp with rfl | hp'
      · exact ⟨o, hf⟩
      · cases o with
        | none => exact ih h hp'
        | some r =>
          cases hrec : collectResults f ps with
          | error e => rw [hrec] at h; exact absurd h (by simp)
          | ok rs' => exact ih hrec hp'

theorem devicePairs_mem_comp {α : Type} {a b : α} :
    ∀ {l : List α}, (a, b) ∈ devicePairs l → a ∈ l ∧ b ∈ l := by
  intro l
  induction l with
  | nil => intro h; exact absurd h (by simp [devicePairs])
  | cons x xs ih =>
    intro h
    unfold devicePairs at h
    rcases List.mem_append.mp h with h1 | h2
    · rcases List.mem_map.mp h1 with ⟨y, hy, hEq⟩
      obtain ⟨rfl, rfl⟩ := Prod.mk.injEq .. ▸ And.intro
        (congrArg Prod.fst hEq) (congrArg Prod.snd hEq)
      exact ⟨List.mem_cons_self _ _, List.mem_cons_of_mem _ hy⟩
    · obtain ⟨ha, hb⟩ := ih h2
      exact ⟨List.mem_cons_of_mem _ ha, List.mem_cons_of_mem _ hb⟩

theorem devicePairs_filter {α : Type} (p : α → Bool) {a b : α} :
    ∀ {l : List α}, (a, b) ∈ devicePairs l → p a = true → p b = true →
      (a, b) ∈ devicePairs (l.filter p) := by
  intro l
  induction l with
  | nil => intro h _ _; exact absurd h (by simp [devicePairs])
  | cons x xs ih =>
    intro h ha hb
    unfold devicePairs at h
    rcases List.mem_append.mp h with h1 | h2
    · rcases List.mem_map.mp h1 with ⟨y, hy, hEq⟩
      cases hEq
      rw [List.filter_cons, if_pos ha]
      unfold devicePairs
      exact List.mem_append.mpr (Or.inl (List.mem_map.mpr
        ⟨b, List.mem_filter.mpr ⟨hy, hb⟩, rfl⟩))
    · have hrec := ih h2 ha hb
      rw [List.filter_cons]
      by_cases hx : p x
      · rw [if_pos hx]
        unfold devicePairs
        exact List.mem_append.mpr (Or.inr hrec)
      · rw [if_neg hx]
        exact hrec

theorem devicePairs_two_le {α : Type} {a b : α} :
    ∀ {l : List α}, (a, b) ∈ devicePairs l → 2 ≤ l.length := by
  intro l
  induction l with
  | nil => intro h; exact absurd h (by simp [devicePairs])
  | cons x xs ih =>
    intro h
    unfold devicePairs at h
    rcases List.mem_append.mp h with h1 | h2
    · rcases List.mem_map.mp h1 with ⟨y, hy, _⟩
      have : 1 ≤ xs.length := List.length_pos.mpr (List.ne_nil_of_mem hy)
      simp only [List.length_cons]
      omega
    · have := ih h2
      simp only [List.length_cons]
      omega

theorem pairResult_ok_some {geoDist bearingFn : ℚ → ℚ → ℚ → ℚ → Option ℚ}
    {scoreFn : ℚ → Option ℚ → Option ℚ → Device → Device → Except Unit ℚ}
    {devices : List Device} {d1 d2 : Device} {r : InterferenceResult}
    (h : pairResult geoDist bearingFn scoreFn devices d1 d2 = .ok (some r)) :
    r.device1 = d1 ∧ r.device2 = d2 ∧ d1.site_id ≠ d2.site_id ∧
    ∃ m1 M1 m2 M2, d1.freq_min = some m1 ∧ d1.freq_max = some M1 ∧
      d2.freq_min = some m2 ∧ d2.freq_max = some M2 ∧
      m1 ≤ M2 ∧ m2 ≤ M1 ∧ r.frequency_overlap = min M1 M2 - max m1 m2 := by
  unfold pairResult at h
  split at h
  · exact absurd h (by simp)
  next hsite =>
    split at h
    next m1 M1 m2 M2 hq1 hq2 hq3 hq4 =>
      split at h
      next hov =>
        dsimp only at h
        split at h
        next e hsc => exact absurd h (by simp)
        next s hsc =>
          have hr := Option.some_inj.mp (Except.ok.inj h)
          subst hr
          exact ⟨rfl, rfl, hsite, m1, M1, m2, M2, hq1, hq2, hq3, hq4,
            hov.1, hov.2, rfl⟩
      next hov => exact absurd h (by simp)
    next hne => exact absurd h (by simp)

theorem pairResult_complete {geoDist bearingFn : ℚ → ℚ → ℚ → ℚ → Option ℚ}
    {scoreFn : ℚ → Option ℚ → Option ℚ → Device → Device → Except Unit ℚ}
    {devices : List Device} {d1 d2 : Device} {o : Option InterferenceResult}
    {m1 M1 m2 M2 : ℚ}
    (hsite : d1.site_id ≠ d2.site_id)
    (hm1 : d1.freq_min = some m1) (hM1 : d1.freq_max = some M1)
    (hm2 : d2.freq_min = some m2) (hM2 : d2.freq_max = some M2)
    (h12 : m1 ≤ M2) (h21 : m2 ≤ M1)
    (h : pairResult geoDist bearingFn scoreFn devices d1 d2 = .ok o) :
    ∃ r, o = some r ∧ r.device1 = d1 ∧ r.device2 = d2 ∧
      r.frequency_overlap = min M1 M2 - max m1 m2 := by
  unfold pairResult at h
  split at h
  · exact absurd (by assumption) hsite
  next _ =>
    split at h
    next n1 N1 n2 N2 hq1 hq2 hq3 hq4 =>
      rw [hm1] at hq1
      rw [hM1] at hq2
      rw [hm2] at hq3
      rw [hM2] at hq4
      cases Option.some_inj.mp hq1
      cases Option.some_inj.mp hq2
      cases Option.some_inj.mp hq3
      cases Option.some_inj.mp hq4
      split at h
      next hov =>
        dsimp only at h
        split at h
        next e hsc => exact absurd h (by simp)
        next s hsc =>
          have ho := Except.ok.inj h
          exact ⟨_, ho.symm, rfl, rfl, rfl⟩
      next hov => exact absurd (And.intro h12 h21) hov
    next hne =>
      exact absurd hne (by push_neg; exact ⟨m1, M1, m2, M2, hm1, hM1, hm2, hM2, not_false⟩)

theorem load_devices_fields {devRecs : List DeviceRecord} {siteRecs : List SiteRecord}
    {wRecs : List WirelessRecord} {d : Device}
    (hd : d ∈ load_devices devRecs siteRecs wRecs) :
    d.freq_min = (freqBounds d.frequency d.channel_width).1 ∧
    d.freq_max = (freqBounds d.frequency d.channel_width).2 ∧
    (∀ w, d.channel_width = some w → ∃ wr ∈ wRecs, wr.channelWidth = some w) := by
  rcases List.mem_filterMap.mp hd with ⟨r, _, hload⟩
  unfold loadDevice at hload
  split at hload
  · exact absurd hload (by simp)
  next did hid =>
    split at hload
    · exact absurd hload (by simp)
    next hempty =>
      dsimp only at hload
      have hdev := Option.some_inj.mp hload
      subst hdev
      refine ⟨rfl, rfl, ?_⟩
      intro w hw
      simp only [Option.bind_eq_some] at hw
      rcases hw with ⟨wcfg, hcfg, hwidth⟩
      have hmem := List.mem_of_getLast?_eq_some hcfg
      exact ⟨wcfg, (List.mem_filter.mp hmem).1, hwidth⟩

theorem freqBounds_some {f w : ℚ} {fo wo : Option ℚ}
    (hf : fo = some f) (hw : wo = some w) :
    (freqBounds fo wo).1 = some (f - w / 2) ∧ (freqBounds fo wo).2 = some (f + w / 2) := by
  subst hf; subst hw
  exact ⟨rfl, rfl⟩

theorem freqBounds_fst_some {fo wo : Option ℚ} {m : ℚ}
    (h : (freqBounds fo wo).1 = some m) :
    ∃ f w, fo = some f ∧ wo = some w ∧ m = f - w / 2 ∧
      (freqBounds fo wo).2 = some (f + w / 2) := by
  cases fo with
  | none => cases wo <;> exact absurd h (by simp [freqBounds])
  | some f =>
    cases wo with
    | none => exact absurd h (by simp [freqBounds])
    | some w =>
      refine ⟨f, w, rfl, rfl, ?_, rfl⟩
      have := Option.some_inj.mp h
      exact this.symm

instance {ε α : Type} [DecidableEq ε] [DecidableEq α] : DecidableEq (Except ε α) :=
  fun a b =>
    match a, b with
    | .error e, .error f =>
      if h : e = f then .isTrue (by rw [h])
      else .isFalse (fun hh => h (Except.error.inj hh))
    | .ok x, .ok y =>
      if h : x = y then .isTrue (by rw [h])
      else .isFalse (fun hh => h (Except.ok.inj hh))
    | .error _, .ok _ => .isFalse (fun hh => Except.noConfusion hh)
    | .ok _, .error _ => .isFalse (fun hh => Except.noConfusion hh)

theorem detect_two_devices (geoDist bearingFn : ℚ → ℚ → ℚ → ℚ → Option ℚ)
    (scoreFn : ℚ → Option ℚ → Option ℚ → Device → Device → Except Unit ℚ)
    (d1 d2 : Device) (h1 : freqFilter d1 = true) (h2 : freqFilter d2 = true) :
    detect_frequency_interference geoDist bearingFn scoreFn [d1, d2] =
      match pairResult geoDist bearingFn scoreFn [d1, d2] d1 d2 with
      | .error e => .error e
      | .ok none => .ok []
      | .ok (some r) => .ok [r] := by
  have hfil : [d1, d2].filter freqFilter = [d1, d2] := by
    simp [List.filter_cons, h1, h2]
  cases hp : pairResult geoDist bearingFn scoreFn [d1, d2] d1 d2 with
  | error e =>
    simp [detect_frequency_interference, hfil, devicePairs, collectResults, hp]
  | ok o =>
    cases o with
    | none => simp [detect_frequency_interference, hfil, devicePairs, collectResults, hp]
    | some r => simp [detect_frequency_interference, hfil, devicePairs, collectResults, hp]

/-! ## C1 -/

/-- C1: whatever the oracles and the device snapshot, whenever
`detect_frequency_interference` returns a result list (rather than raising), that
list is sorted by interference score in non-increasing order (the sort of
line 234), and it is the list `generate_interference_report` consumes. -/
theorem C1_results_sorted (geoDist bearingFn : ℚ → ℚ → ℚ → ℚ → Option ℚ)
    (scoreFn : ℚ → Option ℚ → Option ℚ → Device → Device → Except Unit ℚ)
    (devices : List Device) (rs : List InterferenceResult)
    (h : detect_frequency_interference geoDist bearingFn scoreFn devices = .ok rs) :
    rs.Pairwise (fun a b => b.interference_score ≤ a.interference_score) := by
  unfold detect_frequency_interference at h
  dsimp only at h
  split at h
  · cases Except.ok.inj h
    exact List.Pairwise.nil
  next hlen =>
    split at h
    next e heq => exact absurd h (by simp)
    next rs' heq =>
      cases Except.ok.inj h
      have hs := @List.sorted_mergeSort InterferenceResult
        (fun a b => decide (b.interference_score ≤ a.interference_score))
        (fun a b c hab hbc => by
          simp only [decide_eq_true_eq] at hab hbc ⊢
          exact le_trans hbc hab)
        (fun a b => by
          simp only [Bool.or_eq_true, decide_eq_true_eq]
          exact le_total _ _) rs'
      exact hs.imp (fun hab => by simpa using hab)

/-- Raw records of a two-device snapshot used by pipeline witnesses. -/
def w2DevRecs : List DeviceRecord :=
  [{ id := some "W1", name := some "w1", siteId := some "S1" },
   { id := some "W2", name := some "w2", siteId := some "S2" }]

/-- Wireless records of the witness snapshot: 5180/20 MHz and 5185/20 MHz. -/
def w2WRecs : List WirelessRecord :=
  [{ deviceId := some "W1", frequency := some 5180, channelWidth := some 20 },
   { deviceId := some "W2", frequency := some 5185, channelWidth := some 20 }]

/-- First loaded device of the witness snapshot. -/
def lw1 : Device :=
  { id := "W1", name := "w1", type := "Unknown", model := "Unknown",
    site_id := some "S1", frequency := some 5180, channel_width := some 20,
    freq_min := some 5170, freq_max := some 5190 }

/-- Second loaded device of the witness snapshot. -/
def lw2 : Device :=
  { id := "W2", name := "w2", type := "Unknown", model := "Unknown",
    site_id := some "S2", frequency := some 5185, channel_width := some 20,
    freq_min := some 5175, freq_max := some 5195 }

/-- The single result the witness snapshot produces under the trivial oracles. -/
def wres : InterferenceResult :=
  { device1 := lw1, device2 := lw2, frequency_overlap := 15,
    distance := none, spatial_overlap := none, interference_score := 0,
    recommendation := "Low interference risk. No action needed." }

set_option maxRecDepth 4000 in
theorem load_w2 : load_devices w2DevRecs [] w2WRecs = [lw1, lw2] := by
  with_unfolding_all rfl

set_option maxRecDepth 4000 in
theorem pair_w2 : pairResult geo0 geo0 score0 [lw1, lw2] lw1 lw2 = .ok (some wres) := by
  with_unfolding_all rfl

theorem detect_w2 :
    detect_frequency_interference geo0 geo0 score0 (load_devices w2DevRecs [] w2WRecs) =
      .ok [wres] := by
  rw [load_w2, detect_two_devices geo0 geo0 score0 lw1 lw2 rfl rfl, pair_w2]

/-- Witness for C1: the two-device snapshot produces a sorted singleton. -/
theorem C1_results_sorted_witness :
    List.Pairwise (fun a b : InterferenceResult =>
      b.interference_score ≤ a.interference_score) [wres] :=
  C1_results_sorted geo0 geo0 score0 (load_devices w2DevRecs [] w2WRecs) [wres] detect_w2

/-! ## C7 -/

/-- Device records of the C7 counterexample snapshot. -/
def ce7DevRecs : List DeviceRecord :=
  [{ id := some "D1", siteId := some "A" }, { id := some "D2", siteId := some "B" }]

/-- Wireless records of the C7 counterexample: a negative channel width of -10
inverts the first device's frequency bounds. -/
def ce7WRecs : List WirelessRecord :=
  [{ deviceId := some "D1", frequency := some 5000, channelWidth := some (-10) },
   { deviceId := some "D2", frequency := some 5000, channelWidth := some 100 }]

/-- First loaded device of the C7 counterexample: bounds [5005, 4995], inverted. -/
def ce7Dev1 : Device :=
  { id := "D1", name := "Unknown", type := "Unknown", model := "Unknown",
    site_id := some "A", frequency := some 5000, channel_width := some (-10),
    freq_min := some 5005, freq_max := some 4995 }

/-- Second loaded device of the C7 counterexample: bounds [4950, 5050]. -/
def ce7Dev2 : Device :=
  { id := "D2", name := "Unknown", type := "Unknown", model := "Unknown",
    site_id := some "B", frequency := some 5000, channel_width := some 100,
    freq_min := some 4950, freq_max := some 5050 }

/-- The result the C7 counterexample snapshot produces: overlap -10. -/
def ce7Res : InterferenceResult :=
  { device1 := ce7Dev1, device2 := ce7Dev2, frequency_overlap := -10,
    distance := none, spatial_overlap := none, interference_score := 0,
    recommendation := "Low interference risk. No action needed." }

set_option maxRecDepth 4000 in
theorem load_ce7 : load_devices ce7DevRecs [] ce7WRecs = [ce7Dev1, ce7Dev2] := by
  with_unfolding_all rfl

set_option maxRecDepth 4000 in
theorem pair_ce7 :
    pairResult geo0 geo0 score0 [ce7Dev1, ce7Dev2] ce7Dev1 ce7Dev2 = .ok (some ce7Res) := by
  with_unfolding_all rfl

/-- Counterexample to C7 as stated: with an arbitrary (here negative) channel
width the overlap test can pass on inverted ranges, producing a Conflict Result
whose first device has `freq_min > freq_max` and whose recorded overlap is
negative. -/
theorem C7_counterexample :
    detect_frequency_interference geo0 geo0 score0
        (load_devices ce7DevRecs [] ce7WRecs) = .ok [ce7Res] ∧
    ce7Res.frequency_overlap < 0 ∧
    ce7Res.device1.freq_min = some 5005 ∧ ce7Res.device1.freq_max = some 4995 := by
  refine ⟨?_, by norm_num [ce7Res], rfl, rfl⟩
  rw [load_ce7, detect_two_devices geo0 geo0 score0 ce7Dev1 ce7Dev2 rfl rfl, pair_ce7]

/-- C7 (amended): provided every channel width in the snapshot's wireless records
is non-negative — as every real configuration has — each produced Conflict Result
has ordered frequency bounds on both devices and a non-negative recorded overlap
width. -/
theorem C7_bounds_ordered_overlap_nonneg
    (geoDist bearingFn : ℚ → ℚ → ℚ → ℚ → Option ℚ)
    (scoreFn : ℚ → Option ℚ → Option ℚ → Device → Device → Except Unit ℚ)
    (devRecs : List DeviceRecord) (siteRecs : List SiteRecord)
    (wRecs : List WirelessRecord) (rs : List InterferenceResult)
    (hw : ∀ wr ∈ wRecs, ∀ w, wr.channelWidth = some w → 0 ≤ w)
    (h : detect_frequency_interference geoDist bearingFn scoreFn
      (load_devices devRecs siteRecs wRecs) = .ok rs) :
    ∀ r ∈ rs,
      (∃ m1 M1, r.device1.freq_min = some m1 ∧ r.device1.freq_max = some M1 ∧
        m1 ≤ M1) ∧
      (∃ m2 M2, r.device2.freq_min = some m2 ∧ r.device2.freq_max = some M2 ∧
        m2 ≤ M2) ∧
      0 ≤ r.frequency_overlap := by
  intro r hr
  unfold detect_frequency_interference at h
  dsimp only at h
  split at h
  · cases Except.ok.inj h
    exact absurd hr (List.not_mem_nil r)
  next hlen =>
    split at h
    next e heq => exact absurd h (by simp)
    next rs' heq =>
      cases Except.ok.inj h
      have hr' : r ∈ rs' := List.mem_mergeSort.mp hr
      rcases (collectResults_mem heq r).mp hr' with ⟨p, hp, hpr⟩
      obtain ⟨a, b⟩ := p
      obtain ⟨e1, e2, _, m1, M1, m2, M2, hm1, hM1, hm2, hM2, h12, h21, hov⟩ :=
        pairResult_ok_some hpr
      obtain ⟨haf, hbf⟩ := devicePairs_mem_comp hp
      have haL := (List.mem_filter.mp haf).1
      have hbL := (List.mem_filter.mp hbf).1
      obtain ⟨hafm, hafM, hawr⟩ := load_devices_fields haL
      obtain ⟨hbfm, hbfM, hbwr⟩ := load_devices_fields hbL
      obtain ⟨f1, w1, hf1, hw1, hmval1, hMval1⟩ :=
        freqBounds_fst_some (hafm ▸ hm1)
      obtain ⟨f2, w2, hf2, hw2, hmval2, hMval2⟩ :=
        freqBounds_fst_some (hbfm ▸ hm2)
      have hM1eq : M1 = f1 + w1 / 2 := by
        have : some M1 = some (f1 + w1 / 2) := by rw [← hM1, hafM, hMval1]
        exact Option.some_inj.mp this
      have hM2eq : M2 = f2 + w2 / 2 := by
        have : some M2 = some (f2 + w2 / 2) := by rw [← hM2, hbfM, hMval2]
        exact Option.some_inj.mp this
      obtain ⟨wr1, hwr1, hwr1w⟩ := hawr w1 hw1
      obtain ⟨wr2, hwr2, hwr2w⟩ := hbwr w2 hw2
      have hw1nn : 0 ≤ w1 := hw wr1 hwr1 w1 hwr1w
      have hw2nn : 0 ≤ w2 := hw wr2 hwr2 w2 hwr2w
      have hmM1 : m1 ≤ M1 := by rw [hmval1, hM1eq]; linarith
      have hmM2 : m2 ≤ M2 := by rw [hmval2, hM2eq]; linarith
      refine ⟨⟨m1, M1, ?_, ?_, hmM1⟩, ⟨m2, M2, ?_, ?_, hmM2⟩, ?_⟩
      · rw [e1]; exact hm1
      · rw [e1]; exact hM1
      · rw [e2]; exact hm2
      · rw [e2]; exact hM2
      · rw [hov]
        have : max m1 m2 ≤ min M1 M2 :=
          max_le (le_min hmM1 h12) (le_min h21 hmM2)
        linarith [this]

/-- Witness for the amended C7: the all-non-negative-width witness snapshot,
whose single result has ordered bounds and overlap 15. -/
theorem C7_bounds_ordered_overlap_nonneg_witness :
    (∃ m1 M1, wres.device1.freq_min = some m1 ∧ wres.device1.freq_max = some M1 ∧
      m1 ≤ M1) ∧
    (∃ m2 M2, wres.device2.freq_min = some m2 ∧ wres.device2.freq_max = some M2 ∧
      m2 ≤ M2) ∧
    0 ≤ wres.frequency_overlap :=
  C7_bounds_ordered_overlap_nonneg geo0 geo0 score0 w2DevRecs [] w2WRecs [wres]
    (by
      intro wr hwr w hww
      simp only [w2WRecs, List.mem_cons, List.not_mem_nil, or_false] at hwr
      rcases hwr with rfl | rfl <;>
        · have : some (20 : ℚ) = some w := hww
          rw [← Option.some_inj.mp this]
          norm_num)
    detect_w2 wres (List.mem_cons_self wres [])

/-! ## C2 -/

/-- C2: over any loaded snapshot, an (ordered) device pair of the snapshot yields
a Conflict Result exactly when both devices carry frequency and channel width,
their site ids differ, and the ranges `frequency ± width/2` satisfy
`min1 ≤ max2 ∧ max1 ≥ min2`; and every result recorded for the pair carries the
overlap width `min(max1, max2) − max(min1, min2)`.  In particular a pair sharing
a site id never yields a result (left-to-right direction of the equivalence). -/
theorem C2_pair_production (geoDist bearingFn : ℚ → ℚ → ℚ → ℚ → Option ℚ)
    (scoreFn : ℚ → Option ℚ → Option ℚ → Device → Device → Except Unit ℚ)
    (devRecs : List DeviceRecord) (siteRecs : List SiteRecord)
    (wRecs : List WirelessRecord) (rs : List InterferenceResult) (d1 d2 : Device)
    (h : detect_frequency_interference geoDist bearingFn scoreFn
      (load_devices devRecs siteRecs wRecs) = .ok rs)
    (hmem : (d1, d2) ∈ devicePairs (load_devices devRecs siteRecs wRecs)) :
    ((∃ r ∈ rs, r.device1 = d1 ∧ r.device2 = d2) ↔
      ∃ f1 w1 f2 w2, d1.frequency = some f1 ∧ d1.channel_width = some w1 ∧
        d2.frequency = some f2 ∧ d2.channel_width = some w2 ∧
        d1.site_id ≠ d2.site_id ∧
        f1 - w1 / 2 ≤ f2 + w2 / 2 ∧ f2 - w2 / 2 ≤ f1 + w1 / 2) ∧
    (∀ r ∈ rs, r.device1 = d1 → r.device2 = d2 →
      ∀ f1 w1 f2 w2, d1.frequency = some f1 → d1.channel_width = some w1 →
        d2.frequency = some f2 → d2.channel_width = some w2 →
        r.frequency_overlap =
          min (f1 + w1 / 2) (f2 + w2 / 2) - max (f1 - w1 / 2) (f2 - w2 / 2)) := by
  have hd1L := (devicePairs_mem_comp hmem).1
  have hd2L := (devicePairs_mem_comp hmem).2
  obtain ⟨h1fm, h1fM, _⟩ := load_devices_fields hd1L
  obtain ⟨h2fm, h2fM, _⟩ := load_devices_fields hd2L
  unfold detect_frequency_interference at h
  dsimp only at h
  split at h
  next hlen =>
    cases Except.ok.inj h
    refine ⟨⟨?_, ?_⟩, ?_⟩
    · rintro ⟨r, hr, _⟩
      exact absurd hr (List.not_mem_nil r)
    · rintro ⟨f1, w1, f2, w2, hf1, hw1, hf2, hw2, hsite, hov1, hov2⟩
      have hb1 : freqFilter d1 = true := by simp [freqFilter, hf1, hw1]
      have hb2 : freqFilter d2 = true := by simp [freqFilter, hf2, hw2]
      have h2le := devicePairs_two_le (devicePairs_filter freqFilter hmem hb1 hb2)
      exact absurd h2le (by omega)
    · intro r hr
      exact absurd hr (List.not_mem_nil r)
  next hlen =>
    split at h
    next e heq => exact absurd h (by simp)
    next rs' heq =>
      cases Except.ok.inj h
      refine ⟨⟨?_, ?_⟩, ?_⟩
      · rintro ⟨r, hr, e1, e2⟩
        have hr' := List.mem_mergeSort.mp hr
        rcases (collectResults_mem heq r).mp hr' with ⟨⟨a, b⟩, hp, hpr⟩
        obtain ⟨ea, eb, hsite, m1, M1, m2, M2, hm1, hM1, hm2, hM2, h12, h21, _⟩ :=
          pairResult_ok_some hpr
        have ha : d1 = a := e1.symm.trans ea
        have hb : d2 = b := e2.symm.trans eb
        subst ha
        subst hb
        obtain ⟨f1, w1, hf1, hw1, hm1v, hM1v⟩ := freqBounds_fst_some (h1fm ▸ hm1)
        obtain ⟨f2, w2, hf2, hw2, hm2v, hM2v⟩ := freqBounds_fst_some (h2fm ▸ hm2)
        have hM1eq : M1 = f1 + w1 / 2 :=
          Option.some_inj.mp (by rw [← hM1, h1fM, hM1v])
        have hM2eq : M2 = f2 + w2 / 2 :=
          Option.some_inj.mp (by rw [← hM2, h2fM, hM2v])
        refine ⟨f1, w1, f2, w2, hf1, hw1, hf2, hw2, hsite, ?_, ?_⟩
        · rw [← hm1v, ← hM2eq]; exact h12
        · rw [← hm2v, ← hM1eq]; exact h21
      · rintro ⟨f1, w1, f2, w2, hf1, hw1, hf2, hw2, hsite, hov1, hov2⟩
        have hb1 : freqFilter d1 = true := by simp [freqFilter, hf1, hw1]
        have hb2 : freqFilter d2 = true := by simp [freqFilter, hf2, hw2]
        have hpmem := devicePairs_filter freqFilter hmem hb1 hb2
        obtain ⟨o, ho⟩ := collectResults_ok_of_mem heq hpmem
        have hm1 : d1.freq_min = some (f1 - w1 / 2) := by
          rw [h1fm]; exact (freqBounds_some hf1 hw1).1
        have hM1 : d1.freq_max = some (f1 + w1 / 2) := by
          rw [h1fM]; exact (freqBounds_some hf1 hw1).2
        have hm2 : d2.freq_min = some (f2 - w2 / 2) := by
          rw [h2fm]; exact (freqBounds_some hf2 hw2).1
        have hM2 : d2.freq_max = some (f2 + w2 / 2) := by
          rw [h2fM]; exact (freqBounds_some hf2 hw2).2
        obtain ⟨r, hor, re1, re2, _⟩ :=
          pairResult_complete hsite hm1 hM1 hm2 hM2 hov1 hov2 ho
        subst hor
        have hrrs : r ∈ rs' := (collectResults_mem heq r).mpr ⟨(d1, d2), hpmem, ho⟩
        exact ⟨r, List.mem_mergeSort.mpr hrrs, re1, re2⟩
      · intro r hr e1 e2 f1 w1 f2 w2 hf1 hw1 hf2 hw2
        have hr' := List.mem_mergeSort.mp hr
        rcases (collectResults_mem heq r).mp hr' with ⟨⟨a, b⟩, hp, hpr⟩
        obtain ⟨ea, eb, _, m1, M1, m2, M2, hm1, hM1, hm2, hM2, _, _, hov⟩ :=
          pairResult_ok_some hpr
        have ha : d1 = a := e1.symm.trans ea
        have hb : d2 = b := e2.symm.trans eb
        subst ha
        subst hb
        have hm1' : d1.freq_min = some (f1 - w1 / 2) := by
          rw [h1fm]; exact (freqBounds_some hf1 hw1).1
        have hM1' : d1.freq_max = some (f1 + w1 / 2) := by
          rw [h1fM]; exact (freqBounds_some hf1 hw1).2
        have hm2' : d2.freq_min = some (f2 - w2 / 2) := by
          rw [h2fm]; exact (freqBounds_some hf2 hw2).1
        have hM2' : d2.freq_max = some (f2 + w2 / 2) := by
          rw [h2fM]; exact (freqBounds_some hf2 hw2).2
        have em1 : m1 = f1 - w1 / 2 := Option.some_inj.mp (by rw [← hm1, hm1'])
        have eM1 : M1 = f1 + w1 / 2 := Option.some_inj.mp (by rw [← hM1, hM1'])
        have em2 : m2 = f2 - w2 / 2 := Option.some_inj.mp (by rw [← hm2, hm2'])
        have eM2 : M2 = f2 + w2 / 2 := Option.some_inj.mp (by rw [← hM2, hM2'])
        rw [hov, em1, eM1, em2, eM2]

/-- Witness for C2 at the concrete witness snapshot: the produced singleton
satisfies the pair characterization for the pair (lw1, lw2). -/
theorem C2_pair_production_witness :
    ((∃ r ∈ [wres], r.device1 = lw1 ∧ r.device2 = lw2) ↔
      ∃ f1 w1 f2 w2, lw1.frequency = some f1 ∧ lw1.channel_width = some w1 ∧
        lw2.frequency = some f2 ∧ lw2.channel_width = some w2 ∧
        lw1.site_id ≠ lw2.site_id ∧
        f1 - w1 / 2 ≤ f2 + w2 / 2 ∧ f2 - w2 / 2 ≤ f1 + w1 / 2) ∧
    (∀ r ∈ [wres], r.device1 = lw1 → r.device2 = lw2 →
      ∀ f1 w1 f2 w2, lw1.frequency = some f1 → lw1.channel_width = some w1 →
        lw2.frequency = some f2 → lw2.channel_width = some w2 →
        r.frequency_overlap =
          min (f1 + w1 / 2) (f2 + w2 / 2) - max (f1 - w1 / 2) (f2 - w2 / 2)) :=
  C2_pair_production geo0 geo0 score0 w2DevRecs [] w2WRecs [wres] lw1 lw2 detect_w2
    (by rw [load_w2]; simp [devicePairs])

/-! ## C4 -/

/-- Device records of the C4 failing snapshot. -/
def c4DevRecs : List DeviceRecord :=
  [{ id := some "D1", siteId := some "SA" }, { id := some "D2", siteId := some "SB" }]

/-- Two distinct sites at identical coordinates (40.7, -74). -/
def c4SiteRecs : List SiteRecord :=
  [{ id := some "SA", latitude := some 40.7, longitude := some (-74) },
   { id := some "SB", latitude := some 40.7, longitude := some (-74) }]

/-- Overlapping radio configurations for the C4 failing snapshot. -/
def c4WRecs : List WirelessRecord :=
  [{ deviceId := some "D1", frequency := some 5180, channelWidth := some 20 },
   { deviceId := some "D2", frequency := some 5185, channelWidth := some 20 }]

/-- First loaded device of the C4 failing snapshot. -/
def c4Dev1 : Device :=
  { id := "D1", name := "Unknown", type := "Unknown", model := "Unknown",
    site_id := some "SA", latitude := some 40.7, longitude := some (-74),
    frequency := some 5180, channel_width := some 20,
    freq_min := some 5170, freq_max := some 5190 }

/-- Second loaded device of the C4 failing snapshot. -/
def c4Dev2 : Device :=
  { id := "D2", name := "Unknown", type := "Unknown", model := "Unknown",
    site_id := some "SB", latitude := some 40.7, longitude := some (-74),
    frequency := some 5185, channel_width := some 20,
    freq_min := some 5175, freq_max := some 5195 }

set_option maxRecDepth 8000 in
theorem load_c4 : load_devices c4DevRecs c4SiteRecs c4WRecs = [c4Dev1, c4Dev2] := by
  with_unfolding_all rfl

set_option maxRecDepth 8000 in
theorem pair_c4 :
    pairResult geoDistIdent geo0 (interferenceScoreFlow rat0 rat0)
      [c4Dev1, c4Dev2] c4Dev1 c4Dev2 = .error () := by
  with_unfolding_all rfl

/-- C4 (code bug): on a structurally valid snapshot whose two distinct sites sit
at identical coordinates (geodesic distance exactly 0), the frequency analysis
does not complete — `math.log10(0)` inside `_calculate_interference_score`
(line 340) raises an uncaught `ValueError` which aborts
`detect_frequency_interference` — contradicting the claim (and spec) that
arithmetic failures are caught locally and the analysis always returns a result
list. -/
theorem C4_zero_distance_aborts :
    detect_frequency_interference geoDistIdent geo0 (interferenceScoreFlow rat0 rat0)
      (load_devices c4DevRecs c4SiteRecs c4WRecs) = .error () := by
  rw [load_c4, detect_two_devices geoDistIdent geo0 (interferenceScoreFlow rat0 rat0)
    c4Dev1 c4Dev2 rfl rfl, pair_c4]

end AutoFreqManage
